import Mathlib

/-!
Shallow embedding of Vanstein's bytecode dispatch engine
(`src/vanstein/bytecode/engine.py`): the execution-frame (context) model,
the Native-Call Bridge `VansteinEngine.__run_natively`, and the dispatch
loop `VansteinEngine.run_context`.

Parts of the repository that `engine.py` calls but whose sources are not
under `src/` (`vanstein/context.py` with `_VSContext` / `VSCtxState` /
`VSWrappedFunction`, `vanstein/bytecode/vs_exceptions.py` with
`safe_raise`) are modelled from the specification; each such definition
carries a doc comment starting `Modelled from the spec:`.

Conventions of the embedding:
* The operand stack is a `List VSValue` whose HEAD is the TOP of the
  stack (the end of the Python list), so Python `stack[-(k+1)]` is
  `stack.get? k` and Python `stack.pop()` removes the head.
* Host-level Python exceptions escaping the engine uncontrolled
  (`NotImplementedError`, `IndexError`) are the `.error` case of
  `Except`; the frame object as it stands at the moment of the raise is
  carried alongside, mirroring that the Python heap object survives the
  raise with its mutations intact.
* Python `None` is `VSValue.pynone`; a Python function that executes a
  bare `return` returns `None`.
* Invocation of host callables is a parameter
  `nativeSem : VSValue -> List VSValue -> Except VSError VSValue`
  modelling `fn(*args)`: a result value, or a raised exception.
* Callback registration stores the identity (frame id) of the frame
  whose resume action (`_on_result_cb` / `_on_exception_cb`) was
  registered; firing a callback mutates a frame other than the current
  one, so firings are reported as an event list rather than applied.
-/

/-- Frame lifecycle states (`VSCtxState` in `vanstein/context.py`). -/
inductive VSCtxState where
  | PENDING
  | RUNNING
  | SUSPENDED
  | ERRORED
  | FINISHED
deriving DecidableEq, Repr

/-- A bytecode instruction: opcode name plus integer operand
(`dis.Instruction`, fields `opname` and `arg`). -/
structure Instruction where
  opname : String
  arg : Nat
deriving DecidableEq, Repr

/-- Python values as the engine distinguishes them at a call site:
host builtins (`inspect.isbuiltin`), values carrying the
`_native_invoke` attribute (with their own callability), wrapped
interpreted functions (`VSWrappedFunction`), plain interpreted
functions, bare types (whose `__new__` is the carried value), and
non-callable data. -/
inductive VSValue where
  | builtin (fnId : Nat)
  | marked (fnId : Nat) (isCall : Bool)
  | wrapped (code : List Instruction)
  | func (code : List Instruction)
  | pytype (new : VSValue)
  | pyint (n : Int)
  | pynone
  | obj (n : Nat)
deriving DecidableEq, Repr

/-- Faults travelling over the frame's error channel: the `TypeError`
raised for non-callable values in `__run_natively`, or an exception
raised by a native callable during the bridge's synchronous call. -/
inductive VSError where
  | notCallable (msg : String)
  | nativeExc (eId : Nat)
deriving DecidableEq, Repr

/-- Host-level Python exceptions that escape the engine uncontrolled:
`raise NotImplementedError(opname)` for a missing handler, and
`IndexError` for stack underflow or running off the instruction
stream. -/
inductive HostError where
  | notImplemented (opname : String)
  | indexError
deriving DecidableEq, Repr

/-- A callback firing: delivery of a result or of a fault to the frame
with the given id (the caller whose `_on_result_cb` or
`_on_exception_cb` was registered). -/
inductive VSEvent where
  | resultDelivered (toFrame : Nat) (v : VSValue)
  | exceptionDelivered (toFrame : Nat) (e : VSError)
deriving DecidableEq, Repr

/-- The execution frame `_VSContext`: one activation's instruction
stream, pointer, operand stack, lifecycle state, caller/callee links
(by frame id, modelling Python object identity), callback
registrations, argument transfer buffer, return value and attached
fault. -/
structure VSContext where
  id : Nat
  instructions : List Instruction := []
  pointer : Nat := 0
  stack : List VSValue := []
  state : VSCtxState := .PENDING
  prev_ctx : Option Nat := none
  next_ctx : Option Nat := none
  done_callbacks : List Nat := []
  exc_callbacks : List Nat := []
  pending_args : List VSValue := []
  result : Option VSValue := none
  error : Option VSError := none
deriving DecidableEq, Repr

/-- Modelled from the spec: missing `_VSContext.push` — push a value
onto the operand stack. -/
def VSContext.push (ctx : VSContext) (v : VSValue) : VSContext :=
  { ctx with stack := v :: ctx.stack }

/-- Modelled from the spec: missing `_VSContext.pop` (and direct
`context.stack.pop()`) — pop the top of the operand stack; popping an
empty Python list is a host-level `IndexError`. -/
def VSContext.pop (ctx : VSContext) :
    Except (HostError × VSContext) (VSValue × VSContext) :=
  match ctx.stack with
  | [] => .error (.indexError, ctx)
  | v :: rest => .ok (v, { ctx with stack := rest })

/-- Modelled from the spec: missing `_VSContext.next_instruction` —
fetch `instructions[pointer]` and advance the pointer past it; running
off the end of the stream is a host-level fault. -/
def VSContext.next_instruction (ctx : VSContext) :
    Except (HostError × VSContext) (Instruction × VSContext) :=
  match ctx.instructions.get? ctx.pointer with
  | some i => .ok (i, { ctx with pointer := ctx.pointer + 1 })
  | none => .error (.indexError, ctx)

/-- Modelled from the spec: missing `_VSContext.fill_args` — store the
call arguments into the new frame's `pending_args` transfer buffer. -/
def VSContext.fill_args (ctx : VSContext) (args : List VSValue) : VSContext :=
  { ctx with pending_args := args }

/-- Modelled from the spec: missing `_VSContext.add_done_callback` —
append to the ordered result-callback sequence; a callback is
identified by the frame whose resume action it is. -/
def VSContext.add_done_callback (ctx : VSContext) (frameId : Nat) : VSContext :=
  { ctx with done_callbacks := ctx.done_callbacks ++ [frameId] }

/-- Modelled from the spec: missing `_VSContext.add_exception_callback`
— append to the ordered exception-callback sequence. -/
def VSContext.add_exception_callback (ctx : VSContext) (frameId : Nat) : VSContext :=
  { ctx with exc_callbacks := ctx.exc_callbacks ++ [frameId] }

/-- Modelled from the spec: missing `_VSContext.finish` — the return
value is made available to the registered result callbacks, in
registration order. -/
def VSContext.finish (ctx : VSContext) : VSContext × List VSEvent :=
  (ctx, ctx.done_callbacks.map (fun f => .resultDelivered f (ctx.result.getD .pynone)))

/-- Modelled from the spec: missing `safe_raise` from
`vanstein/bytecode/vs_exceptions.py` — the fault channel: the frame is
transitioned to ERRORED with the fault attached for external
inspection, and the fault is routed to the registered exception
callbacks (notifications are events, since they mutate other
frames). -/
def safe_raise (ctx : VSContext) (e : VSError) : VSContext × List VSEvent :=
  ({ ctx with state := .ERRORED, error := some e },
   ctx.exc_callbacks.map (fun f => .exceptionDelivered f e))

/-- `inspect.isbuiltin`: true exactly for host builtin callables. -/
def isbuiltin : VSValue → Bool
  | .builtin _ => true
  | _ => false

/-- `hasattr(x, "_native_invoke")`: the `@native_invoke` marker. -/
def hasNativeInvoke : VSValue → Bool
  | .marked _ _ => true
  | _ => false

/-- Python `callable`: builtins, wrapped functions, plain functions and
types are callable; data values are not; a marked value carries its own
callability. -/
def pyCallable : VSValue → Bool
  | .builtin _ => true
  | .marked _ c => c
  | .wrapped _ => true
  | .func _ => true
  | .pytype _ => true
  | _ => false

/-- `isinstance(x, VSWrappedFunction)`. -/
def isWrapped : VSValue → Bool
  | .wrapped _ => true
  | _ => false

/-- The spec's notion of an interpreted callable: a wrapped function or
a plain interpreted function. -/
def isInterpreted : VSValue → Bool
  | .wrapped _ => true
  | .func _ => true
  | _ => false

/-- The callee normalization at the call site: a bare type
(`type(bottom_of_stack) is type`) is replaced by its `__new__` before
the dispatch checks (`bottom_of_stack = bottom_of_stack.__new__`). -/
def normalizeCallee : VSValue → VSValue
  | .pytype n => n
  | v => v

/-- The instruction stream a callee value is bound to; values with no
interpreted body have an empty stream. -/
def codeOf : VSValue → List Instruction
  | .func c => c
  | .wrapped c => c
  | _ => []

/-- Modelled from the spec: missing `_VSContext.__init__` — "Wrap the
function in a context": create a frame bound to the callee's
instruction stream. `frameId` models host object identity of the fresh
allocation. -/
def VSContext_init (fn : VSValue) (frameId : Nat) : VSContext :=
  { id := frameId, instructions := codeOf fn }

/-- Modelled from the spec: missing `VSWrappedFunction.__call__` —
"Call the VSWrappedFunction to get a new context": yields a fresh frame
for the wrapped function's code. -/
def VSWrappedFunction_call (code : List Instruction) (frameId : Nat) : VSContext :=
  VSContext_init (.func code) frameId

/-- Host semantics of synchronously invoking a value on arguments:
`fn(*args)` either returns a value or raises. -/
abbrev NativeSem := VSValue → List VSValue → Except VSError VSValue

/-- The opcode handler table (`getattr(instructions, opname)`): opcode
name to a handler mutating the frame; `none` models the
`AttributeError` for an absent handler. -/
abbrev HandlerTable := String → Option (VSContext → Instruction → VSContext)

/-- A Python function that executes a bare `return` returns `None`. -/
def pyOfOpt : Option VSValue → VSValue
  | some v => v
  | none => .pynone

/-- Pop `n` values off the operand stack, topmost first (the loop
`for x in range(0, number_of_args): args.append(context.stack.pop())`
in `__run_natively`, and the identical loop over `context.pop()` in
`run_context`). -/
def popN (ctx : VSContext) : Nat → Except (HostError × VSContext) (List VSValue × VSContext)
  | 0 => .ok ([], ctx)
  | n + 1 =>
    match ctx.stack with
    | [] => .error (.indexError, ctx)
    | v :: rest =>
      match popN { ctx with stack := rest } n with
      | .error e => .error e
      | .ok (vs, ctx2) => .ok (v :: vs, ctx2)

/-- The Native-Call Bridge `VansteinEngine.__run_natively`: pop the
declared argument count off the stack, restore call order, pop the
callee, check callability (`TypeError` through `safe_raise` if not),
invoke synchronously; a raised exception goes to `safe_raise` and the
bridge returns no value (Python `None`). -/
def run_natively (nativeSem : NativeSem) (ctx : VSContext)
    (instruction : Instruction) :
    Except (HostError × VSContext) (Option VSValue × VSContext × List VSEvent) :=
  match popN ctx instruction.arg with
  | .error e => .error e
  | .ok (argsPopped, ctx1) =>
    let args := argsPopped.reverse
    match ctx1.pop with
    | .error e => .error e
    | .ok (fn, ctx2) =>
      if pyCallable fn = false then
        let r := safe_raise ctx2 (.notCallable "object is not callable")
        .ok (none, r.1, r.2)
      else
        match nativeSem fn args with
        | .error e =>
          let r := safe_raise ctx2 e
          .ok (none, r.1, r.2)
        | .ok result => .ok (some result, ctx2, [])

/-- The engine's introspection fields (`self.current_instruction`,
`self.current_context`, the latter by frame id). -/
structure EngineSt where
  current_instruction : Option Instruction := none
  current_context : Option Nat := none
deriving DecidableEq, Repr

/-- What one `run_context` invocation produced: Python returns `None`
after the FINISHED check (having called `finish`) or after the ERRORED
check, or returns the newly created callee frame; `outOfFuel` is the
artefact of bounding the source's unbounded loop. The frame as mutated
by the run is carried for observation. -/
inductive RunResult where
  | finished (ctx : VSContext)
  | errored (ctx : VSContext)
  | newFrame (ctx : VSContext) (callee : VSContext)
  | outOfFuel (ctx : VSContext)
deriving DecidableEq, Repr

/-- Outcome of one iteration of the `while True` body: either the
function returns, or the loop continues with the mutated frame. -/
inductive StepOut where
  | ret (r : RunResult)
  | cont (ctx : VSContext)
deriving DecidableEq, Repr

/-- The inline native arm of the CALL_FUNCTION case: run the bridge,
flip the frame back to RUNNING, push the result (Python `None` when the
bridge returned no value), and continue the loop. -/
def nativeCallBranch (nativeSem : NativeSem) (eng : EngineSt)
    (ctx : VSContext) (instr : Instruction) :
    Except (HostError × VSContext) (StepOut × EngineSt × List VSEvent) :=
  match run_natively nativeSem ctx instr with
  | .error e => .error e
  | .ok (result, ctx1, evs) =>
    let ctx2 := { ctx1 with state := .RUNNING }
    let ctx3 := ctx2.push (pyOfOpt result)
    .ok (.cont ctx3, eng, evs)

/-- The context-switch arm of the CALL_FUNCTION case: create the callee
frame (calling a `VSWrappedFunction`, else wrapping the value in a
fresh `_VSContext`), link the two frames, set the callee PENDING,
register the caller's resume callbacks on the callee, move the
arguments into `pending_args` in call order, pop the callee value, and
return the new frame to the driver. -/
def interpretedCallBranch (fresh : Nat) (eng : EngineSt) (ctx : VSContext)
    (instr : Instruction) (bos : VSValue) :
    Except (HostError × VSContext) (StepOut × EngineSt × List VSEvent) :=
  let new0 :=
    match bos with
    | .wrapped c => VSWrappedFunction_call c fresh
    | _ => VSContext_init bos fresh
  let new1 := { new0 with prev_ctx := some ctx.id }
  let ctx1 := { ctx with next_ctx := some new1.id }
  let new2 := { new1 with state := .PENDING }
  let new3 := (new2.add_done_callback ctx1.id).add_exception_callback ctx1.id
  match popN ctx1 instr.arg with
  | .error e => .error e
  | .ok (argsPopped, ctx2) =>
    let args := argsPopped.reverse
    let new4 := new3.fill_args args
    match ctx2.pop with
    | .error e => .error e
    | .ok (_, ctx3) => .ok (.ret (.newFrame ctx3 new4), eng, [])

/-- The body of the CALL_FUNCTION case after the frame has been
suspended: peek the callee `arg` entries below the top of the stack
(`context.stack[-(next_instruction.arg + 1)]`), normalize a bare type
to its `__new__`, and choose the native or the context-switch arm by
the builtin / `_native_invoke` checks. -/
def examineCallee (nativeSem : NativeSem) (fresh : Nat) (eng : EngineSt)
    (ctx : VSContext) (instr : Instruction) :
    Except (HostError × VSContext) (StepOut × EngineSt × List VSEvent) :=
  match ctx.stack.get? instr.arg with
  | none => .error (.indexError, ctx)
  | some bos0 =>
    let bos := normalizeCallee bos0
    if isbuiltin bos || hasNativeInvoke bos then
      nativeCallBranch nativeSem eng ctx instr
    else
      interpretedCallBranch fresh eng ctx instr bos

/-- The CALL_FUNCTION case of the dispatch loop: the frame is suspended
first ("We need to context switch, so suspend this current one":
`context.state = VSCtxState.SUSPENDED`), then the callee is
examined. -/
def dispatchCall (nativeSem : NativeSem) (fresh : Nat) (eng : EngineSt)
    (ctx : VSContext) (instr : Instruction) :
    Except (HostError × VSContext) (StepOut × EngineSt × List VSEvent) :=
  examineCallee nativeSem fresh eng { ctx with state := .SUSPENDED } instr

/-- One iteration of the `while True` loop of
`VansteinEngine.run_context`: the FINISHED and ERRORED checks, the
instruction fetch, the CALL_FUNCTION special case, else the handler
table lookup (`raise NotImplementedError(opname)` when absent). -/
def runStep (handlers : HandlerTable) (nativeSem : NativeSem) (fresh : Nat)
    (eng : EngineSt) (ctx : VSContext) :
    Except (HostError × VSContext) (StepOut × EngineSt × List VSEvent) :=
  if ctx.state = .FINISHED then
    let r := ctx.finish
    .ok (.ret (.finished r.1), eng, r.2)
  else if ctx.state = .ERRORED then
    .ok (.ret (.errored ctx), eng, [])
  else
    match ctx.next_instruction with
    | .error e => .error e
    | .ok (instr, ctx1) =>
      let eng1 := { eng with current_instruction := some instr }
      if instr.opname = "CALL_FUNCTION" then
        dispatchCall nativeSem fresh eng1 ctx1 instr
      else
        match handlers instr.opname with
        | none => .error (.notImplemented instr.opname, ctx1)
        | some h => .ok (.cont (h ctx1 instr), eng1, [])

/-- The dispatch loop, bounded by fuel (the source loop is unbounded;
every claim below needs only finitely many iterations). Events from all
iterations are accumulated in order. -/
def runLoop (handlers : HandlerTable) (nativeSem : NativeSem) (fresh : Nat) :
    Nat → EngineSt → VSContext → List VSEvent →
    Except (HostError × VSContext) (RunResult × EngineSt × List VSEvent)
  | 0, eng, ctx, evs => .ok (.outOfFuel ctx, eng, evs)
  | fuel + 1, eng, ctx, evs =>
    match runStep handlers nativeSem fresh eng ctx with
    | .error e => .error e
    | .ok (.ret r, eng1, evs1) => .ok (r, eng1, evs ++ evs1)
    | .ok (.cont ctx1, eng1, evs1) =>
      runLoop handlers nativeSem fresh fuel eng1 ctx1 (evs ++ evs1)

/-- `VansteinEngine.run_context`: switch the frame to RUNNING
(`context.state = VSCtxState.RUNNING`), record it as the engine's
current context, and run the dispatch loop. `fresh` is the host
identity given to a frame allocated during this run; `fuel` bounds the
loop. -/
def run_context (handlers : HandlerTable) (nativeSem : NativeSem)
    (fresh : Nat) (fuel : Nat) (eng : EngineSt) (ctx : VSContext) :
    Except (HostError × VSContext) (RunResult × EngineSt × List VSEvent) :=
  let ctx1 := { ctx with state := .RUNNING }
  let eng1 := { eng with current_context := some ctx1.id }
  runLoop handlers nativeSem fresh fuel eng1 ctx1 []

/-! ## Concrete fixtures used by the counterexamples and witnesses below -/

/-- A handler table with no handlers at all. -/
def handlersEmpty : HandlerTable := fun _ => none

/-- A sample handler table for the non-call opcodes used in concrete
runs: LOAD_CONST pushes a constant, RETURN_VALUE finishes the frame
with the top of the stack as its result. -/
def handlersLR : HandlerTable := fun s =>
  if s = "LOAD_CONST" then some (fun c _ => c.push (.pyint 1))
  else if s = "RETURN_VALUE" then
    some (fun c _ => { c with state := .FINISHED, result := c.stack.head? })
  else none

/-- A host in which every native invocation raises (exception id 7). -/
def nsRaise7 : NativeSem := fun _ _ => .error (.nativeExc 7)

/-- A host in which every native invocation returns the value 42. -/
def nsConst42 : NativeSem := fun _ _ => .ok (.pyint 42)

/-- A frame about to execute CALL_FUNCTION on the non-invokable data
value `obj 5`. -/
def ctxC1 : VSContext :=
  { id := 1, instructions := [⟨"CALL_FUNCTION", 0⟩], stack := [.obj 5] }

/-- A frame already FINISHED whose instruction stream still has
instructions at the pointer. -/
def ctxC2 : VSContext :=
  { id := 1, instructions := [⟨"LOAD_CONST", 0⟩, ⟨"RETURN_VALUE", 0⟩],
    state := .FINISHED }

/-- A frame about to execute CALL_FUNCTION on a builtin callee. -/
def ctxC3 : VSContext :=
  { id := 1, instructions := [⟨"CALL_FUNCTION", 0⟩], stack := [.builtin 0] }

/-- A frame about to call an interpreted function on two arguments,
with an extra value below the call operands. -/
def ctxC4 : VSContext :=
  { id := 3, instructions := [⟨"CALL_FUNCTION", 2⟩],
    stack := [.pyint 2, .pyint 1, .func [⟨"RETURN_VALUE", 0⟩], .pyint 99] }

/-- A frame whose only instruction carries an opcode absent from the
handler table. -/
def ctxC5 : VSContext :=
  { id := 1, instructions := [⟨"FOO_BAR", 0⟩] }

/-- A RUNNING frame about to execute a native call that will raise,
followed by a return instruction. -/
def ctxC6 : VSContext :=
  { id := 1, instructions := [⟨"CALL_FUNCTION", 0⟩, ⟨"RETURN_VALUE", 0⟩],
    stack := [.builtin 0], state := .RUNNING }

/-- An ERRORED frame with a fault attached, mid-stream. -/
def ctxC6err : VSContext :=
  { id := 1, instructions := [⟨"CALL_FUNCTION", 0⟩, ⟨"RETURN_VALUE", 0⟩],
    pointer := 1, stack := [.pyint 3], state := .ERRORED,
    error := some (.nativeExc 7) }

/-- A frame about to execute CALL_FUNCTION on a bare type whose
construction entry point is a builtin. -/
def ctxC9 : VSContext :=
  { id := 1, instructions := [⟨"CALL_FUNCTION", 1⟩],
    stack := [.pyint 4, .pytype (.builtin 2)], state := .RUNNING }

/-! ## General lemmas about the embedded engine -/

theorem getElem?_append_cons {α : Type} (L : List α) (v : α) (rest : List α) :
    (L ++ v :: rest)[L.length]? = some v := by
  induction L with
  | nil => simp
  | cons a L ih => simpa using ih

theorem popN_append (L : List VSValue) (ctx : VSContext) (rest : List VSValue)
    (h : ctx.stack = L ++ rest) :
    popN ctx L.length = .ok (L, { ctx with stack := rest }) := by
  induction L generalizing ctx with
  | nil =>
    simp only [List.nil_append] at h
    simp [popN, ← h]
  | cons v L ih =>
    simp only [List.cons_append] at h
    simp only [List.length_cons, popN, h]
    rw [ih { ctx with stack := L ++ rest } rfl]

theorem newFrame_uniform (bos : VSValue) (fresh : Nat) :
    (match bos with
     | .wrapped c => VSWrappedFunction_call c fresh
     | _ => VSContext_init bos fresh) = VSContext_init bos fresh := by
  cases bos <;> rfl

theorem runStep_call (handlers : HandlerTable) (nativeSem : NativeSem)
    (fresh : Nat) (eng : EngineSt) (ctx : VSContext) (instr : Instruction)
    (hstate : ctx.state = .RUNNING)
    (hfetch : ctx.instructions[ctx.pointer]? = some instr)
    (hop : instr.opname = "CALL_FUNCTION") :
    runStep handlers nativeSem fresh eng ctx =
      dispatchCall nativeSem fresh { eng with current_instruction := some instr }
        { ctx with pointer := ctx.pointer + 1 } instr := by
  simp [runStep, hstate, VSContext.next_instruction, hfetch, hop]

theorem examineCallee_peek (nativeSem : NativeSem) (fresh : Nat) (eng : EngineSt)
    (ctx : VSContext) (instr : Instruction) (callee : VSValue)
    (hpeek : ctx.stack[instr.arg]? = some callee) :
    examineCallee nativeSem fresh eng ctx instr =
      if isbuiltin (normalizeCallee callee) || hasNativeInvoke (normalizeCallee callee) then
        nativeCallBranch nativeSem eng ctx instr
      else interpretedCallBranch fresh eng ctx instr (normalizeCallee callee) := by
  simp [examineCallee, hpeek]

theorem interpretedCallBranch_eq (fresh : Nat) (eng : EngineSt) (ctx : VSContext)
    (instr : Instruction) (bos : VSValue) (L : List VSValue) (callee : VSValue)
    (rest : List VSValue)
    (hstack : ctx.stack = L ++ callee :: rest)
    (harg : instr.arg = L.length) :
    interpretedCallBranch fresh eng ctx instr bos =
      .ok (.ret (.newFrame
        { ctx with next_ctx := some fresh, stack := rest }
        { id := fresh, instructions := codeOf bos, pointer := 0, stack := [],
          state := .PENDING, prev_ctx := some ctx.id, next_ctx := none,
          done_callbacks := [ctx.id], exc_callbacks := [ctx.id],
          pending_args := L.reverse, result := none, error := none }),
        eng, []) := by
  have h1 : ({ ctx with next_ctx := some fresh } : VSContext).stack = L ++ (callee :: rest) := by
    simpa using hstack
  have hpop := popN_append L { ctx with next_ctx := some fresh } (callee :: rest) h1
  cases bos <;>
    simp [interpretedCallBranch, VSWrappedFunction_call, VSContext_init, codeOf, harg, hpop,
      VSContext.add_done_callback, VSContext.add_exception_callback, VSContext.fill_args,
      VSContext.pop]

theorem run_natively_ok (nativeSem : NativeSem) (ctx : VSContext)
    (instr : Instruction) (L : List VSValue) (callee : VSValue)
    (rest : List VSValue) (r : VSValue)
    (hstack : ctx.stack = L ++ callee :: rest)
    (harg : instr.arg = L.length)
    (hcall : pyCallable callee = true)
    (hsem : nativeSem callee L.reverse = .ok r) :
    run_natively nativeSem ctx instr = .ok (some r, { ctx with stack := rest }, []) := by
  have hpop := popN_append L ctx (callee :: rest) hstack
  simp [run_natively, harg, hpop, VSContext.pop, hcall, hsem]

theorem run_natively_err (nativeSem : NativeSem) (ctx : VSContext)
    (instr : Instruction) (L : List VSValue) (callee : VSValue)
    (rest : List VSValue) (e : VSError)
    (hstack : ctx.stack = L ++ callee :: rest)
    (harg : instr.arg = L.length)
    (hcall : pyCallable callee = true)
    (hsem : nativeSem callee L.reverse = .error e) :
    run_natively nativeSem ctx instr =
      .ok (none, { ctx with stack := rest, state := .ERRORED, error := some e },
        ctx.exc_callbacks.map (fun f => .exceptionDelivered f e)) := by
  have hpop := popN_append L ctx (callee :: rest) hstack
  simp [run_natively, harg, hpop, VSContext.pop, hcall, hsem, safe_raise]

theorem run_natively_notCallable (nativeSem : NativeSem) (ctx : VSContext)
    (instr : Instruction) (L : List VSValue) (callee : VSValue)
    (rest : List VSValue)
    (hstack : ctx.stack = L ++ callee :: rest)
    (harg : instr.arg = L.length)
    (hcall : pyCallable callee = false) :
    run_natively nativeSem ctx instr =
      .ok (none,
        { ctx with stack := rest, state := .ERRORED,
                   error := some (.notCallable "object is not callable") },
        ctx.exc_callbacks.map
          (fun f => .exceptionDelivered f (.notCallable "object is not callable"))) := by
  have hpop := popN_append L ctx (callee :: rest) hstack
  simp [run_natively, harg, hpop, VSContext.pop, hcall, safe_raise]

theorem nativeCallBranch_ok (nativeSem : NativeSem) (eng : EngineSt)
    (ctx : VSContext) (instr : Instruction) (L : List VSValue)
    (callee : VSValue) (rest : List VSValue) (r : VSValue)
    (hstack : ctx.stack = L ++ callee :: rest)
    (harg : instr.arg = L.length)
    (hcall : pyCallable callee = true)
    (hsem : nativeSem callee L.reverse = .ok r) :
    nativeCallBranch nativeSem eng ctx instr =
      .ok (.cont { ctx with state := .RUNNING, stack := r :: rest }, eng, []) := by
  rw [nativeCallBranch, run_natively_ok nativeSem ctx instr L callee rest r hstack harg hcall hsem]
  simp [VSContext.push, pyOfOpt]

theorem nativeCallBranch_err (nativeSem : NativeSem) (eng : EngineSt)
    (ctx : VSContext) (instr : Instruction) (L : List VSValue)
    (callee : VSValue) (rest : List VSValue) (e : VSError)
    (hstack : ctx.stack = L ++ callee :: rest)
    (harg : instr.arg = L.length)
    (hcall : pyCallable callee = true)
    (hsem : nativeSem callee L.reverse = .error e) :
    nativeCallBranch nativeSem eng ctx instr =
      .ok (.cont { ctx with state := .RUNNING, stack := .pynone :: rest, error := some e },
        eng, ctx.exc_callbacks.map (fun f => .exceptionDelivered f e)) := by
  rw [nativeCallBranch, run_natively_err nativeSem ctx instr L callee rest e hstack harg hcall hsem]
  simp [VSContext.push, pyOfOpt]

theorem nativeCallBranch_notCallable (nativeSem : NativeSem) (eng : EngineSt)
    (ctx : VSContext) (instr : Instruction) (L : List VSValue)
    (callee : VSValue) (rest : List VSValue)
    (hstack : ctx.stack = L ++ callee :: rest)
    (harg : instr.arg = L.length)
    (hcall : pyCallable callee = false) :
    nativeCallBranch nativeSem eng ctx instr =
      .ok (.cont
        { ctx with state := .RUNNING, stack := .pynone :: rest,
                   error := some (.notCallable "object is not callable") },
        eng, ctx.exc_callbacks.map
          (fun f => .exceptionDelivered f (.notCallable "object is not callable"))) := by
  rw [nativeCallBranch, run_natively_notCallable nativeSem ctx instr L callee rest hstack harg hcall]
  simp [VSContext.push, pyOfOpt]

theorem runStep_switch (handlers : HandlerTable) (nativeSem : NativeSem)
    (fresh : Nat) (eng : EngineSt) (ctx : VSContext) (instr : Instruction)
    (L : List VSValue) (callee : VSValue) (rest : List VSValue)
    (hstate : ctx.state = .RUNNING)
    (hfetch : ctx.instructions[ctx.pointer]? = some instr)
    (hop : instr.opname = "CALL_FUNCTION")
    (hstack : ctx.stack = L ++ callee :: rest)
    (harg : instr.arg = L.length)
    (hb : isbuiltin (normalizeCallee callee) = false)
    (hn : hasNativeInvoke (normalizeCallee callee) = false) :
    runStep handlers nativeSem fresh eng ctx =
      .ok (.ret (.newFrame
        { ctx with pointer := ctx.pointer + 1, state := .SUSPENDED,
                   next_ctx := some fresh, stack := rest }
        { id := fresh, instructions := codeOf (normalizeCallee callee),
          pointer := 0, stack := [], state := .PENDING,
          prev_ctx := some ctx.id, next_ctx := none,
          done_callbacks := [ctx.id], exc_callbacks := [ctx.id],
          pending_args := L.reverse, result := none, error := none }),
        { eng with current_instruction := some instr }, []) := by
  rw [runStep_call handlers nativeSem fresh eng ctx instr hstate hfetch hop, dispatchCall]
  have hpeek : (({ ctx with pointer := ctx.pointer + 1, state := VSCtxState.SUSPENDED } : VSContext)).stack[instr.arg]? = some callee := by
    simpa [hstack, harg] using getElem?_append_cons L callee rest
  rw [examineCallee_peek nativeSem fresh _ _ instr callee hpeek]
  simp only [hb, hn, Bool.or_self, Bool.false_eq_true, if_false]
  rw [interpretedCallBranch_eq fresh _ _ instr (normalizeCallee callee) L callee rest (by simpa using hstack) harg]

theorem runStep_native_ok (handlers : HandlerTable) (nativeSem : NativeSem)
    (fresh : Nat) (eng : EngineSt) (ctx : VSContext) (instr : Instruction)
    (L : List VSValue) (callee : VSValue) (rest : List VSValue) (r : VSValue)
    (hstate : ctx.state = .RUNNING)
    (hfetch : ctx.instructions[ctx.pointer]? = some instr)
    (hop : instr.opname = "CALL_FUNCTION")
    (hstack : ctx.stack = L ++ callee :: rest)
    (harg : instr.arg = L.length)
    (hnat : (isbuiltin (normalizeCallee callee) || hasNativeInvoke (normalizeCallee callee)) = true)
    (hcall : pyCallable callee = true)
    (hsem : nativeSem callee L.reverse = .ok r) :
    runStep handlers nativeSem fresh eng ctx =
      .ok (.cont { ctx with pointer := ctx.pointer + 1, state := .RUNNING, stack := r :: rest },
           { eng with current_instruction := some instr }, []) := by
  rw [runStep_call handlers nativeSem fresh eng ctx instr hstate hfetch hop, dispatchCall]
  have hpeek : (({ ctx with pointer := ctx.pointer + 1, state := VSCtxState.SUSPENDED } : VSContext)).stack[instr.arg]? = some callee := by
    simpa [hstack, harg] using getElem?_append_cons L callee rest
  rw [examineCallee_peek nativeSem fresh _ _ instr callee hpeek]
  simp only [hnat, if_true]
  rw [nativeCallBranch_ok nativeSem _ _ instr L callee rest r (by simpa using hstack) harg hcall hsem]

theorem runStep_native_err (handlers : HandlerTable) (nativeSem : NativeSem)
    (fresh : Nat) (eng : EngineSt) (ctx : VSContext) (instr : Instruction)
    (L : List VSValue) (callee : VSValue) (rest : List VSValue) (e : VSError)
    (hstate : ctx.state = .RUNNING)
    (hfetch : ctx.instructions[ctx.pointer]? = some instr)
    (hop : instr.opname = "CALL_FUNCTION")
    (hstack : ctx.stack = L ++ callee :: rest)
    (harg : instr.arg = L.length)
    (hnat : (isbuiltin (normalizeCallee callee) || hasNativeInvoke (normalizeCallee callee)) = true)
    (hcall : pyCallable callee = true)
    (hsem : nativeSem callee L.reverse = .error e) :
    runStep handlers nativeSem fresh eng ctx =
      .ok (.cont
        { ctx with pointer := ctx.pointer + 1, state := .RUNNING,
                   stack := .pynone :: rest, error := some e },
           { eng with current_instruction := some instr },
           ctx.exc_callbacks.map (fun f => .exceptionDelivered f e)) := by
  rw [runStep_call handlers nativeSem fresh eng ctx instr hstate hfetch hop, dispatchCall]
  have hpeek : (({ ctx with pointer := ctx.pointer + 1, state := VSCtxState.SUSPENDED } : VSContext)).stack[instr.arg]? = some callee := by
    simpa [hstack, harg] using getElem?_append_cons L callee rest
  rw [examineCallee_peek nativeSem fresh _ _ instr callee hpeek]
  simp only [hnat, if_true]
  rw [nativeCallBranch_err nativeSem _ _ instr L callee rest e (by simpa using hstack) harg hcall hsem]

theorem run_context_eq (handlers : HandlerTable) (nativeSem : NativeSem)
    (fresh : Nat) (fuel : Nat) (eng : EngineSt) (ctx : VSContext) :
    run_context handlers nativeSem fresh fuel eng ctx =
      runLoop handlers nativeSem fresh fuel
        { eng with current_context := some ctx.id }
        { ctx with state := .RUNNING } [] :=
  rfl

theorem runLoop_ret (handlers : HandlerTable) (nativeSem : NativeSem)
    (fresh : Nat) (fuel : Nat) (eng : EngineSt) (ctx : VSContext)
    (evs : List VSEvent) (r : RunResult) (eng1 : EngineSt) (evs1 : List VSEvent)
    (h : runStep handlers nativeSem fresh eng ctx = .ok (.ret r, eng1, evs1)) :
    runLoop handlers nativeSem fresh (fuel + 1) eng ctx evs =
      .ok (r, eng1, evs ++ evs1) := by
  simp [runLoop, h]

theorem runLoop_cont (handlers : HandlerTable) (nativeSem : NativeSem)
    (fresh : Nat) (fuel : Nat) (eng : EngineSt) (ctx : VSContext)
    (evs : List VSEvent) (ctx1 : VSContext) (eng1 : EngineSt) (evs1 : List VSEvent)
    (h : runStep handlers nativeSem fresh eng ctx = .ok (.cont ctx1, eng1, evs1)) :
    runLoop handlers nativeSem fresh (fuel + 1) eng ctx evs =
      runLoop handlers nativeSem fresh fuel eng1 ctx1 (evs ++ evs1) := by
  simp [runLoop, h]

theorem runLoop_raise (handlers : HandlerTable) (nativeSem : NativeSem)
    (fresh : Nat) (fuel : Nat) (eng : EngineSt) (ctx : VSContext)
    (evs : List VSEvent) (e : HostError × VSContext)
    (h : runStep handlers nativeSem fresh eng ctx = .error e) :
    runLoop handlers nativeSem fresh (fuel + 1) eng ctx evs = .error e := by
  simp [runLoop, h]

theorem runStep_errored (handlers : HandlerTable) (nativeSem : NativeSem)
    (fresh : Nat) (eng : EngineSt) (ctx : VSContext)
    (hstate : ctx.state = .ERRORED) :
    runStep handlers nativeSem fresh eng ctx = .ok (.ret (.errored ctx), eng, []) := by
  simp [runStep, hstate]

theorem runStep_handler (handlers : HandlerTable) (nativeSem : NativeSem)
    (fresh : Nat) (eng : EngineSt) (ctx : VSContext) (instr : Instruction)
    (h : VSContext → Instruction → VSContext)
    (hs1 : ctx.state ≠ .FINISHED) (hs2 : ctx.state ≠ .ERRORED)
    (hfetch : ctx.instructions[ctx.pointer]? = some instr)
    (hop : instr.opname ≠ "CALL_FUNCTION")
    (hh : handlers instr.opname = some h) :
    runStep handlers nativeSem fresh eng ctx =
      .ok (.cont (h { ctx with pointer := ctx.pointer + 1 } instr),
        { eng with current_instruction := some instr }, []) := by
  simp [runStep, hs1, hs2, VSContext.next_instruction, hfetch, hop, hh]

theorem runStep_noHandler (handlers : HandlerTable) (nativeSem : NativeSem)
    (fresh : Nat) (eng : EngineSt) (ctx : VSContext) (instr : Instruction)
    (hs1 : ctx.state ≠ .FINISHED) (hs2 : ctx.state ≠ .ERRORED)
    (hfetch : ctx.instructions[ctx.pointer]? = some instr)
    (hop : instr.opname ≠ "CALL_FUNCTION")
    (hh : handlers instr.opname = none) :
    runStep handlers nativeSem fresh eng ctx =
      .error (.notImplemented instr.opname, { ctx with pointer := ctx.pointer + 1 }) := by
  simp [runStep, hs1, hs2, VSContext.next_instruction, hfetch, hop, hh]

theorem runStep_native_notCallable (handlers : HandlerTable) (nativeSem : NativeSem)
    (fresh : Nat) (eng : EngineSt) (ctx : VSContext) (instr : Instruction)
    (L : List VSValue) (callee : VSValue) (rest : List VSValue)
    (hstate : ctx.state = .RUNNING)
    (hfetch : ctx.instructions[ctx.pointer]? = some instr)
    (hop : instr.opname = "CALL_FUNCTION")
    (hstack : ctx.stack = L ++ callee :: rest)
    (harg : instr.arg = L.length)
    (hnat : (isbuiltin (normalizeCallee callee) || hasNativeInvoke (normalizeCallee callee)) = true)
    (hcall : pyCallable callee = false) :
    runStep handlers nativeSem fresh eng ctx =
      .ok (.cont
        { ctx with pointer := ctx.pointer + 1, state := .RUNNING,
                   stack := .pynone :: rest,
                   error := some (.notCallable "object is not callable") },
        { eng with current_instruction := some instr },
        ctx.exc_callbacks.map
          (fun f => .exceptionDelivered f (.notCallable "object is not callable"))) := by
  rw [runStep_call handlers nativeSem fresh eng ctx instr hstate hfetch hop, dispatchCall]
  have hpeek : (({ ctx with pointer := ctx.pointer + 1, state := VSCtxState.SUSPENDED } : VSContext)).stack[instr.arg]? = some callee := by
    simpa [hstack, harg] using getElem?_append_cons L callee rest
  rw [examineCallee_peek nativeSem fresh _ _ instr callee hpeek]
  simp only [hnat, if_true]
  rw [nativeCallBranch_notCallable nativeSem _ _ instr L callee rest (by simpa using hstack) harg hcall]

/-! ## Claim C1 -/

/-- Claim C1, counterexample: the callee value `obj 5` is not invokable
at all (not builtin, not native-invoke-marked, not a wrapped function),
yet the dispatch engine does NOT fail with a NotCallable fault: it
creates a brand-new callee frame wrapping the value and returns it to
the driver, with the caller left SUSPENDED, no fault attached and no
exception callbacks fired. -/
theorem C1_counterexample :
    pyCallable (.obj 5) = false ∧
    isbuiltin (.obj 5) = false ∧
    hasNativeInvoke (.obj 5) = false ∧
    isWrapped (.obj 5) = false ∧
    run_context handlersEmpty nsRaise7 2 1 {} ctxC1 =
      .ok (.newFrame
        { id := 1, instructions := [⟨"CALL_FUNCTION", 0⟩], pointer := 1,
          stack := [], state := .SUSPENDED, prev_ctx := none,
          next_ctx := some 2, done_callbacks := [], exc_callbacks := [],
          pending_args := [], result := none, error := none }
        { id := 2, instructions := [], pointer := 0, stack := [],
          state := .PENDING, prev_ctx := some 1, next_ctx := none,
          done_callbacks := [1], exc_callbacks := [1], pending_args := [],
          result := none, error := none },
        { current_instruction := some ⟨"CALL_FUNCTION", 0⟩,
          current_context := some 1 }, []) :=
  ⟨rfl, rfl, rfl, rfl, rfl⟩

/-- Claim C1, amended: when the callee value at a CALL_FUNCTION site is
not callable and not native-invoke-marked, the engine raises no
NotCallable fault at all: it creates a new callee frame wrapping the
value and returns it to the driver, the caller ending SUSPENDED with
its error field untouched and no callbacks fired.  (Only a
native-invoke-marked non-callable callee reaches the NotCallable fault,
inside the bridge.) -/
theorem C1_amended (handlers : HandlerTable) (nativeSem : NativeSem)
    (fresh : Nat) (eng : EngineSt) (ctx : VSContext) (instr : Instruction)
    (L : List VSValue) (callee : VSValue) (rest : List VSValue)
    (hstate : ctx.state = .RUNNING)
    (hfetch : ctx.instructions[ctx.pointer]? = some instr)
    (hop : instr.opname = "CALL_FUNCTION")
    (hstack : ctx.stack = L ++ callee :: rest)
    (harg : instr.arg = L.length)
    (hcall : pyCallable callee = false)
    (hmark : hasNativeInvoke callee = false) :
    runStep handlers nativeSem fresh eng ctx =
      .ok (.ret (.newFrame
        { ctx with pointer := ctx.pointer + 1, state := .SUSPENDED,
                   next_ctx := some fresh, stack := rest }
        { id := fresh, instructions := codeOf callee, pointer := 0,
          stack := [], state := .PENDING, prev_ctx := some ctx.id,
          next_ctx := none, done_callbacks := [ctx.id],
          exc_callbacks := [ctx.id], pending_args := L.reverse,
          result := none, error := none }),
        { eng with current_instruction := some instr }, []) := by
  have hnorm : normalizeCallee callee = callee := by
    cases callee <;> simp_all [pyCallable, normalizeCallee]
  have hb : isbuiltin (normalizeCallee callee) = false := by
    rw [hnorm]; cases callee <;> simp_all [pyCallable, isbuiltin]
  have hn : hasNativeInvoke (normalizeCallee callee) = false := by
    rw [hnorm]; exact hmark
  rw [runStep_switch handlers nativeSem fresh eng ctx instr L callee rest
    hstate hfetch hop hstack harg hb hn, hnorm]

/-- Witness for C1_amended at the concrete frame of the counterexample. -/
theorem C1_amended_witness :
    pyCallable (.obj 5) = false ∧
    runStep handlersEmpty nsRaise7 2 {} { ctxC1 with state := .RUNNING } =
      .ok (.ret (.newFrame
        { id := 1, instructions := [⟨"CALL_FUNCTION", 0⟩], pointer := 1,
          stack := [], state := .SUSPENDED, prev_ctx := none,
          next_ctx := some 2, done_callbacks := [], exc_callbacks := [],
          pending_args := [], result := none, error := none }
        { id := 2, instructions := [], pointer := 0, stack := [],
          state := .PENDING, prev_ctx := some 1, next_ctx := none,
          done_callbacks := [1], exc_callbacks := [1], pending_args := [],
          result := none, error := none }),
        { current_instruction := some ⟨"CALL_FUNCTION", 0⟩ }, []) :=
  ⟨rfl, C1_amended handlersEmpty nsRaise7 2 {} _ _ [] (.obj 5) []
    rfl rfl rfl rfl rfl rfl rfl⟩

/-! ## Claim C2 -/

/-- Claim C2, counterexample: invoking run on a frame already FINISHED
is NOT a no-op returning null: starting from state FINISHED, empty
stack and pointer 0, the run re-executes both remaining instructions —
the final frame has a value pushed onto its stack and its pointer moved
to 2. -/
theorem C2_counterexample :
    ctxC2.state = .FINISHED ∧
    ctxC2.stack = [] ∧
    ctxC2.pointer = 0 ∧
    run_context handlersLR nsConst42 9 4 {} ctxC2 =
      .ok (.finished
        { id := 1,
          instructions := [⟨"LOAD_CONST", 0⟩, ⟨"RETURN_VALUE", 0⟩],
          pointer := 2, stack := [.pyint 1], state := .FINISHED,
          prev_ctx := none, next_ctx := none, done_callbacks := [],
          exc_callbacks := [], pending_args := [],
          result := some (.pyint 1), error := none },
        { current_instruction := some ⟨"RETURN_VALUE", 0⟩,
          current_context := some 1 }, []) :=
  ⟨rfl, rfl, rfl, rfl⟩

/-- Claim C2, amended: run overwrites the frame's state with RUNNING
before the first terminal-state check, so a frame already FINISHED or
ERRORED is treated exactly like the same frame in state RUNNING and its
instructions are re-executed; the FINISHED/ERRORED null-returns apply
only to terminal states reached during the run. -/
theorem C2_amended (handlers : HandlerTable) (nativeSem : NativeSem)
    (fresh : Nat) (fuel : Nat) (eng : EngineSt) (ctx : VSContext)
    (_hterm : ctx.state = .FINISHED ∨ ctx.state = .ERRORED) :
    run_context handlers nativeSem fresh fuel eng ctx =
      run_context handlers nativeSem fresh fuel eng
        { ctx with state := .RUNNING } :=
  rfl

/-- Witness for C2_amended at the concrete FINISHED frame. -/
theorem C2_amended_witness :
    (ctxC2.state = .FINISHED ∨ ctxC2.state = .ERRORED) ∧
    run_context handlersLR nsConst42 9 4 {} ctxC2 =
      run_context handlersLR nsConst42 9 4 {} { ctxC2 with state := .RUNNING } :=
  ⟨Or.inl rfl, C2_amended handlersLR nsConst42 9 4 {} ctxC2 (Or.inl rfl)⟩

/-! ## Claim C3 -/

/-- Claim C3, counterexample: the native callee raises; the fault is
converted into the frame's error channel, but the bridge's missing
value comes back as Python None and the dispatch engine pushes it: the
frame's operand stack, empty of the call's operands after the bridge,
ends holding the pushed None — a result IS pushed for that call. -/
theorem C3_counterexample :
    pyCallable (.builtin 0) = true ∧
    nsRaise7 (.builtin 0) [] = .error (.nativeExc 7) ∧
    run_context handlersEmpty nsRaise7 5 1 {} ctxC3 =
      .ok (.outOfFuel
        { id := 1, instructions := [⟨"CALL_FUNCTION", 0⟩], pointer := 1,
          stack := [.pynone], state := .RUNNING, prev_ctx := none,
          next_ctx := none, done_callbacks := [], exc_callbacks := [],
          pending_args := [], result := none, error := some (.nativeExc 7) },
        { current_instruction := some ⟨"CALL_FUNCTION", 0⟩,
          current_context := some 1 }, []) :=
  ⟨rfl, rfl, rfl⟩

/-- Claim C3, amended: when a native callable raises during the
bridge's synchronous call, the fault is converted into the frame's
error channel (error field set, exception callbacks notified) and the
bridge returns None — which the dispatch engine then pushes onto the
frame's operand stack, flipping the frame back to RUNNING: exactly one
value (None) is pushed for the failed call. -/
theorem C3_amended (handlers : HandlerTable) (nativeSem : NativeSem)
    (fresh : Nat) (eng : EngineSt) (ctx : VSContext) (instr : Instruction)
    (L : List VSValue) (callee : VSValue) (rest : List VSValue) (e : VSError)
    (hstate : ctx.state = .RUNNING)
    (hfetch : ctx.instructions[ctx.pointer]? = some instr)
    (hop : instr.opname = "CALL_FUNCTION")
    (hstack : ctx.stack = L ++ callee :: rest)
    (harg : instr.arg = L.length)
    (hnat : (isbuiltin (normalizeCallee callee) || hasNativeInvoke (normalizeCallee callee)) = true)
    (hcall : pyCallable callee = true)
    (hsem : nativeSem callee L.reverse = .error e) :
    runStep handlers nativeSem fresh eng ctx =
      .ok (.cont
        { ctx with pointer := ctx.pointer + 1, state := .RUNNING,
                   stack := .pynone :: rest, error := some e },
        { eng with current_instruction := some instr },
        ctx.exc_callbacks.map (fun f => .exceptionDelivered f e)) :=
  runStep_native_err handlers nativeSem fresh eng ctx instr L callee rest e
    hstate hfetch hop hstack harg hnat hcall hsem

/-- Witness for C3_amended at the concrete raising builtin call. -/
theorem C3_amended_witness :
    pyCallable (.builtin 0) = true ∧
    runStep handlersEmpty nsRaise7 5 {} { ctxC3 with state := .RUNNING } =
      .ok (.cont
        { id := 1, instructions := [⟨"CALL_FUNCTION", 0⟩], pointer := 1,
          stack := [.pynone], state := .RUNNING, prev_ctx := none,
          next_ctx := none, done_callbacks := [], exc_callbacks := [],
          pending_args := [], result := none, error := some (.nativeExc 7) },
        { current_instruction := some ⟨"CALL_FUNCTION", 0⟩ }, []) :=
  ⟨rfl, C3_amended handlersEmpty nsRaise7 5 {} _ _ [] (.builtin 0) []
    (.nativeExc 7) rfl rfl rfl rfl rfl rfl rfl rfl⟩

/-! ## Claim C4 -/

/-- Claim C4: a CALL_FUNCTION whose callee is an interpreted callable
pops exactly arg + 1 values from the caller's operand stack (the
arguments plus the callee), creates exactly one new frame whose
pending_args receive the popped arguments in call order, links the new
frame's caller (prev_ctx) to the original frame and the original
frame's callee (next_ctx) to the new frame, sets the new frame PENDING
and the original frame SUSPENDED, and returns the new frame from
run. -/
theorem C4_interpreted_call (handlers : HandlerTable) (nativeSem : NativeSem)
    (fresh : Nat) (fuel : Nat) (eng : EngineSt) (ctx : VSContext)
    (instr : Instruction) (args : List VSValue) (callee : VSValue)
    (rest : List VSValue)
    (hfetch : ctx.instructions[ctx.pointer]? = some instr)
    (hop : instr.opname = "CALL_FUNCTION")
    (hstack : ctx.stack = args.reverse ++ callee :: rest)
    (harg : instr.arg = args.length)
    (hint : isInterpreted callee = true) :
    run_context handlers nativeSem fresh (fuel + 1) eng ctx =
      .ok (.newFrame
        { ctx with state := .SUSPENDED, pointer := ctx.pointer + 1,
                   next_ctx := some fresh, stack := rest }
        { id := fresh, instructions := codeOf callee, pointer := 0,
          stack := [], state := .PENDING, prev_ctx := some ctx.id,
          next_ctx := none, done_callbacks := [ctx.id],
          exc_callbacks := [ctx.id], pending_args := args,
          result := none, error := none },
        { eng with current_instruction := some instr,
                   current_context := some ctx.id }, []) := by
  have hnorm : normalizeCallee callee = callee := by
    cases callee <;> simp_all [isInterpreted, normalizeCallee]
  have hb : isbuiltin (normalizeCallee callee) = false := by
    rw [hnorm]; cases callee <;> simp_all [isInterpreted, isbuiltin]
  have hn : hasNativeInvoke (normalizeCallee callee) = false := by
    rw [hnorm]; cases callee <;> simp_all [isInterpreted, hasNativeInvoke]
  rw [run_context_eq]
  have hstep := runStep_switch handlers nativeSem fresh
    { eng with current_context := some ctx.id } { ctx with state := .RUNNING }
    instr args.reverse callee rest rfl hfetch hop hstack
    (by simpa using harg) hb hn
  rw [runLoop_ret handlers nativeSem fresh fuel _ _ [] _ _ _ hstep]
  simp [hnorm, List.reverse_reverse]

/-- Witness for C4_interpreted_call: a concrete two-argument call of an
interpreted function. -/
theorem C4_interpreted_call_witness :
    isInterpreted (.func [⟨"RETURN_VALUE", 0⟩]) = true ∧
    run_context handlersLR nsConst42 7 1 {} ctxC4 =
      .ok (.newFrame
        { id := 3, instructions := [⟨"CALL_FUNCTION", 2⟩], pointer := 1,
          stack := [.pyint 99], state := .SUSPENDED, prev_ctx := none,
          next_ctx := some 7, done_callbacks := [], exc_callbacks := [],
          pending_args := [], result := none, error := none }
        { id := 7, instructions := [⟨"RETURN_VALUE", 0⟩], pointer := 0,
          stack := [], state := .PENDING, prev_ctx := some 3,
          next_ctx := none, done_callbacks := [3], exc_callbacks := [3],
          pending_args := [.pyint 1, .pyint 2], result := none,
          error := none },
        { current_instruction := some ⟨"CALL_FUNCTION", 2⟩,
          current_context := some 3 }, []) :=
  ⟨rfl, C4_interpreted_call handlersLR nsConst42 7 0 {} ctxC4
    ⟨"CALL_FUNCTION", 2⟩ [.pyint 1, .pyint 2] (.func [⟨"RETURN_VALUE", 0⟩])
    [.pyint 99] rfl rfl rfl rfl rfl⟩

/-! ## Claim C5 -/

/-- Claim C5, counterexample: an instruction stream referencing opcode
FOO_BAR absent from the handler table makes run raise a host-level
NotImplementedError — but the frame IS left in state RUNNING (nothing
transitions it out before the raise). -/
theorem C5_counterexample :
    handlersEmpty "FOO_BAR" = none ∧
    run_context handlersEmpty nsConst42 5 1 {} ctxC5 =
      .error (.notImplemented "FOO_BAR",
        { id := 1, instructions := [⟨"FOO_BAR", 0⟩], pointer := 1,
          stack := [], state := .RUNNING, prev_ctx := none,
          next_ctx := none, done_callbacks := [], exc_callbacks := [],
          pending_args := [], result := none, error := none }) :=
  ⟨rfl, rfl⟩

/-- Claim C5, amended: an opcode that is not CALL_FUNCTION and has no
handler in the handler table makes run fail by raising a host-level
NotImplementedError carrying the opcode name (the UnsupportedOpcode
condition); the frame is left in state RUNNING with its pointer
advanced past the unsupported instruction. -/
theorem C5_amended (handlers : HandlerTable) (nativeSem : NativeSem)
    (fresh : Nat) (fuel : Nat) (eng : EngineSt) (ctx : VSContext)
    (instr : Instruction)
    (hfetch : ctx.instructions[ctx.pointer]? = some instr)
    (hop : instr.opname ≠ "CALL_FUNCTION")
    (hh : handlers instr.opname = none) :
    run_context handlers nativeSem fresh (fuel + 1) eng ctx =
      .error (.notImplemented instr.opname,
        { ctx with state := .RUNNING, pointer := ctx.pointer + 1 }) := by
  rw [run_context_eq]
  have hstep := runStep_noHandler handlers nativeSem fresh
    { eng with current_context := some ctx.id } { ctx with state := .RUNNING }
    instr (by simp) (by simp) hfetch hop hh
  rw [runLoop_raise handlers nativeSem fresh fuel _ _ [] _ hstep]

/-- Witness for C5_amended at the concrete FOO_BAR frame. -/
theorem C5_amended_witness :
    handlersEmpty "FOO_BAR" = none ∧
    run_context handlersEmpty nsConst42 5 1 {} ctxC5 =
      .error (.notImplemented "FOO_BAR",
        { ctxC5 with state := .RUNNING, pointer := 1 }) :=
  ⟨rfl, C5_amended handlersEmpty nsConst42 5 0 {} ctxC5 ⟨"FOO_BAR", 0⟩
    rfl (by decide) rfl⟩

/-! ## Claim C6 -/

/-- Claim C6, counterexample: during the native bridge the frame (with
no exception callbacks registered) reaches ERRORED with the fault
attached — yet in the very same dispatch step the engine pushes None
onto its operand stack and flips it back to RUNNING, and the run then
executes the next instruction, moving the pointer: the stack and
pointer are NOT frozen at the point of failure, and the frame even ends
FINISHED. -/
theorem C6_counterexample :
    (run_natively nsRaise7 { ctxC6 with pointer := 1, state := .SUSPENDED }
        ⟨"CALL_FUNCTION", 0⟩ =
      .ok (none,
        { id := 1,
          instructions := [⟨"CALL_FUNCTION", 0⟩, ⟨"RETURN_VALUE", 0⟩],
          pointer := 1, stack := [], state := .ERRORED, prev_ctx := none,
          next_ctx := none, done_callbacks := [], exc_callbacks := [],
          pending_args := [], result := none,
          error := some (.nativeExc 7) }, [])) ∧
    runStep handlersLR nsRaise7 5 {} ctxC6 =
      .ok (.cont
        { id := 1,
          instructions := [⟨"CALL_FUNCTION", 0⟩, ⟨"RETURN_VALUE", 0⟩],
          pointer := 1, stack := [.pynone], state := .RUNNING,
          prev_ctx := none, next_ctx := none, done_callbacks := [],
          exc_callbacks := [], pending_args := [], result := none,
          error := some (.nativeExc 7) },
        { current_instruction := some ⟨"CALL_FUNCTION", 0⟩,
          current_context := none }, []) ∧
    run_context handlersLR nsRaise7 5 3 {} ctxC6 =
      .ok (.finished
        { id := 1,
          instructions := [⟨"CALL_FUNCTION", 0⟩, ⟨"RETURN_VALUE", 0⟩],
          pointer := 2, stack := [.pynone], state := .FINISHED,
          prev_ctx := none, next_ctx := none, done_callbacks := [],
          exc_callbacks := [], pending_args := [],
          result := some .pynone, error := some (.nativeExc 7) },
        { current_instruction := some ⟨"RETURN_VALUE", 0⟩,
          current_context := some 1 }, []) :=
  ⟨rfl, rfl, rfl⟩

/-- Claim C6, amended: a frame observed in state ERRORED at the
dispatch-loop check is returned as-is — its attached fault exposed in
its error field, its operand stack and pointer untouched by the engine
from that check on; the freeze does NOT hold across the native-bridge
fault path, where the arguments are popped before the failing call and
the bridge's None result is pushed afterwards. -/
theorem C6_amended (handlers : HandlerTable) (nativeSem : NativeSem)
    (fresh : Nat) (eng : EngineSt) (ctx : VSContext)
    (hstate : ctx.state = .ERRORED) :
    runStep handlers nativeSem fresh eng ctx =
      .ok (.ret (.errored ctx), eng, []) :=
  runStep_errored handlers nativeSem fresh eng ctx hstate

/-- Witness for C6_amended at a concrete ERRORED frame. -/
theorem C6_amended_witness :
    ctxC6err.state = .ERRORED ∧
    runStep handlersLR nsRaise7 5 {} ctxC6err =
      .ok (.ret (.errored ctxC6err), {}, []) :=
  ⟨rfl, C6_amended handlersLR nsRaise7 5 {} ctxC6err rfl⟩

/-! ## Claim C7 -/

/-- Claim C7: a CALL_FUNCTION whose callee is a native callable (builtin
or native-invoke-marked after normalization) never changes the frame's
caller/callee links and never returns control to the driver: whatever
the native invocation does (succeed, raise, or fail the callability
check), the dispatch step yields a continue of the same frame — with
prev_ctx and next_ctx unchanged and the frame back in RUNNING — so the
loop proceeds to the frame's next instruction inside the same
invocation of run. -/
theorem C7_native_no_switch (handlers : HandlerTable) (nativeSem : NativeSem)
    (fresh : Nat) (eng : EngineSt) (ctx : VSContext) (instr : Instruction)
    (L : List VSValue) (callee : VSValue) (rest : List VSValue)
    (hstate : ctx.state = .RUNNING)
    (hfetch : ctx.instructions[ctx.pointer]? = some instr)
    (hop : instr.opname = "CALL_FUNCTION")
    (hstack : ctx.stack = L ++ callee :: rest)
    (harg : instr.arg = L.length)
    (hnat : (isbuiltin (normalizeCallee callee) || hasNativeInvoke (normalizeCallee callee)) = true) :
    ∃ ctx1 evs,
      runStep handlers nativeSem fresh eng ctx =
        .ok (.cont ctx1, { eng with current_instruction := some instr }, evs) ∧
      ctx1.prev_ctx = ctx.prev_ctx ∧ ctx1.next_ctx = ctx.next_ctx ∧
      ctx1.state = .RUNNING := by
  cases hc : pyCallable callee with
  | true =>
    cases hsem : nativeSem callee L.reverse with
    | ok r =>
      exact ⟨_, _, runStep_native_ok handlers nativeSem fresh eng ctx instr
        L callee rest r hstate hfetch hop hstack harg hnat hc hsem, rfl, rfl, rfl⟩
    | error e =>
      exact ⟨_, _, runStep_native_err handlers nativeSem fresh eng ctx instr
        L callee rest e hstate hfetch hop hstack harg hnat hc hsem, rfl, rfl, rfl⟩
  | false =>
    exact ⟨_, _, runStep_native_notCallable handlers nativeSem fresh eng ctx instr
      L callee rest hstate hfetch hop hstack harg hnat hc, rfl, rfl, rfl⟩

/-- Witness for C7_native_no_switch at a concrete builtin call. -/
theorem C7_native_no_switch_witness :
    (isbuiltin (normalizeCallee (.builtin 0)) || hasNativeInvoke (normalizeCallee (.builtin 0))) = true ∧
    (∃ ctx1 evs,
      runStep handlersEmpty nsConst42 5 {} { ctxC3 with state := .RUNNING } =
        .ok (.cont ctx1,
          { current_instruction := some ⟨"CALL_FUNCTION", 0⟩,
            current_context := none }, evs) ∧
      ctx1.prev_ctx = ({ ctxC3 with state := .RUNNING } : VSContext).prev_ctx ∧
      ctx1.next_ctx = ({ ctxC3 with state := .RUNNING } : VSContext).next_ctx ∧
      ctx1.state = .RUNNING) :=
  ⟨rfl, C7_native_no_switch handlersEmpty nsConst42 5 {}
    { ctxC3 with state := .RUNNING } ⟨"CALL_FUNCTION", 0⟩ [] (.builtin 0) []
    rfl rfl rfl rfl rfl rfl⟩

/-! ## Claim C8 -/

/-- Claim C8: whenever a frame is suspended by a call instruction
(RUNNING to SUSPENDED context switch), the instruction pointer has
already been advanced past the call instruction — the suspended caller
returned to the driver has pointer equal to the pre-call pointer plus
one, so resumption continues at the instruction following the call. -/
theorem C8_pointer_before_suspend (handlers : HandlerTable)
    (nativeSem : NativeSem) (fresh : Nat) (fuel : Nat) (eng : EngineSt)
    (ctx : VSContext) (instr : Instruction) (L : List VSValue)
    (callee : VSValue) (rest : List VSValue)
    (hfetch : ctx.instructions[ctx.pointer]? = some instr)
    (hop : instr.opname = "CALL_FUNCTION")
    (hstack : ctx.stack = L ++ callee :: rest)
    (harg : instr.arg = L.length)
    (hb : isbuiltin (normalizeCallee callee) = false)
    (hn : hasNativeInvoke (normalizeCallee callee) = false) :
    ∃ ctxA newF engA,
      run_context handlers nativeSem fresh (fuel + 1) eng ctx =
        .ok (.newFrame ctxA newF, engA, []) ∧
      ctxA.state = .SUSPENDED ∧ ctxA.pointer = ctx.pointer + 1 := by
  rw [run_context_eq]
  have hstep := runStep_switch handlers nativeSem fresh
    { eng with current_context := some ctx.id } { ctx with state := .RUNNING }
    instr L callee rest rfl hfetch hop hstack harg hb hn
  refine ⟨{ ctx with state := .SUSPENDED, pointer := ctx.pointer + 1,
                     next_ctx := some fresh, stack := rest },
    { id := fresh, instructions := codeOf (normalizeCallee callee),
      pointer := 0, stack := [], state := .PENDING, prev_ctx := some ctx.id,
      next_ctx := none, done_callbacks := [ctx.id], exc_callbacks := [ctx.id],
      pending_args := L.reverse, result := none, error := none },
    { eng with current_instruction := some instr,
               current_context := some ctx.id }, ?_, rfl, rfl⟩
  rw [runLoop_ret handlers nativeSem fresh fuel _ _ [] _ _ _ hstep]
  rfl

/-- Witness for C8_pointer_before_suspend at the concrete two-argument
interpreted call. -/
theorem C8_pointer_before_suspend_witness :
    ctxC4.pointer = 0 ∧
    (∃ ctxA newF engA,
      run_context handlersLR nsConst42 7 1 {} ctxC4 =
        .ok (.newFrame ctxA newF, engA, []) ∧
      ctxA.state = .SUSPENDED ∧ ctxA.pointer = ctxC4.pointer + 1) :=
  ⟨rfl, C8_pointer_before_suspend handlersLR nsConst42 7 0 {} ctxC4
    ⟨"CALL_FUNCTION", 2⟩ [.pyint 2, .pyint 1] (.func [⟨"RETURN_VALUE", 0⟩])
    [.pyint 99] rfl rfl rfl rfl rfl rfl⟩

/-! ## Claim C9 -/

/-- Claim C9: a CALL_FUNCTION whose callee value is a bare type is
dispatched by substituting the type's construction entry point
(`__new__`) before the invokability checks: the type value itself is
not builtin, yet when its `__new__` is builtin the call takes the
native path and completes like an ordinary native function call,
pushing the constructed result. -/
theorem C9_constructor_substitution (handlers : HandlerTable)
    (nativeSem : NativeSem) (fresh : Nat) (eng : EngineSt) (ctx : VSContext)
    (instr : Instruction) (L : List VSValue) (nv : VSValue)
    (rest : List VSValue) (r : VSValue)
    (hstate : ctx.state = .RUNNING)
    (hfetch : ctx.instructions[ctx.pointer]? = some instr)
    (hop : instr.opname = "CALL_FUNCTION")
    (hstack : ctx.stack = L ++ .pytype nv :: rest)
    (harg : instr.arg = L.length)
    (hb : isbuiltin nv = true)
    (hsem : nativeSem (.pytype nv) L.reverse = .ok r) :
    isbuiltin (.pytype nv) = false ∧
    normalizeCallee (.pytype nv) = nv ∧
    runStep handlers nativeSem fresh eng ctx =
      .ok (.cont
        { ctx with pointer := ctx.pointer + 1, state := .RUNNING,
                   stack := r :: rest },
        { eng with current_instruction := some instr }, []) :=
  ⟨rfl, rfl, runStep_native_ok handlers nativeSem fresh eng ctx instr L
    (.pytype nv) rest r hstate hfetch hop hstack harg
    (by simp [normalizeCallee, hb]) rfl hsem⟩

/-- Witness for C9_constructor_substitution at a concrete one-argument
construction. -/
theorem C9_constructor_substitution_witness :
    isbuiltin (.pytype (.builtin 2)) = false ∧
    normalizeCallee (.pytype (.builtin 2)) = .builtin 2 ∧
    runStep handlersEmpty nsConst42 5 {} ctxC9 =
      .ok (.cont
        { id := 1, instructions := [⟨"CALL_FUNCTION", 1⟩], pointer := 1,
          stack := [.pyint 42], state := .RUNNING, prev_ctx := none,
          next_ctx := none, done_callbacks := [], exc_callbacks := [],
          pending_args := [], result := none, error := none },
        { current_instruction := some ⟨"CALL_FUNCTION", 1⟩,
          current_context := none }, []) :=
  C9_constructor_substitution handlersEmpty nsConst42 5 {} ctxC9
    ⟨"CALL_FUNCTION", 1⟩ [.pyint 4] (.builtin 2) [] (.pyint 42)
    rfl rfl rfl rfl rfl rfl rfl

/-! ## Claim C10 -/

/-- Claim C10: dispatching any CALL_FUNCTION sets the frame's state to
SUSPENDED before the callee value is examined (first conjunct, which
holds by the very structure of the dispatch); when the callee turns out
to be native, the same dispatch step ends with the frame set back to
RUNNING (second conjunct) — so the frame transiently occupies SUSPENDED
even though no context switch occurs. -/
theorem C10_transient_suspension (nativeSem : NativeSem) (fresh : Nat)
    (eng : EngineSt) (ctx : VSContext) (instr : Instruction)
    (L : List VSValue) (callee : VSValue) (rest : List VSValue) (r : VSValue)
    (hstack : ctx.stack = L ++ callee :: rest)
    (harg : instr.arg = L.length)
    (hnat : (isbuiltin (normalizeCallee callee) || hasNativeInvoke (normalizeCallee callee)) = true)
    (hcall : pyCallable callee = true)
    (hsem : nativeSem callee L.reverse = .ok r) :
    dispatchCall nativeSem fresh eng ctx instr =
      examineCallee nativeSem fresh eng { ctx with state := .SUSPENDED } instr ∧
    dispatchCall nativeSem fresh eng ctx instr =
      .ok (.cont { ctx with state := .RUNNING, stack := r :: rest }, eng, []) := by
  constructor
  · rfl
  · rw [dispatchCall]
    have hpeek : (({ ctx with state := VSCtxState.SUSPENDED } : VSContext)).stack[instr.arg]? = some callee := by
      simpa [hstack, harg] using getElem?_append_cons L callee rest
    rw [examineCallee_peek nativeSem fresh _ _ instr callee hpeek]
    simp only [hnat, if_true]
    rw [nativeCallBranch_ok nativeSem _ _ instr L callee rest r
      (by simpa using hstack) harg hcall hsem]

/-- Witness for C10_transient_suspension at a concrete builtin call. -/
theorem C10_transient_suspension_witness :
    dispatchCall nsConst42 5 {} { ctxC3 with state := .RUNNING }
        ⟨"CALL_FUNCTION", 0⟩ =
      examineCallee nsConst42 5 {} { ctxC3 with state := .SUSPENDED }
        ⟨"CALL_FUNCTION", 0⟩ ∧
    dispatchCall nsConst42 5 {} { ctxC3 with state := .RUNNING }
        ⟨"CALL_FUNCTION", 0⟩ =
      .ok (.cont
        { ctxC3 with state := .RUNNING, stack := [.pyint 42] }, {}, []) :=
  C10_transient_suspension nsConst42 5 {} { ctxC3 with state := .RUNNING }
    ⟨"CALL_FUNCTION", 0⟩ [] (.builtin 0) [] (.pyint 42)
    rfl rfl rfl rfl rfl
